import Mathlib

/-!
A shallow embedding of the session-lifecycle subsystem of the
supertokens-python SDK: session creation, local-first verification,
refresh, revocation, the overridable recipe and API interfaces, and the
translation of session results into cookie/header instructions.

The repository sources available here contain the session tests
(tests/test_session.py) and the signout API handler
(supertokens_python/recipe/session/api/signout.py).  The protocol engine
itself (session_functions.py, recipe_implementation.py, the session
container and the response middleware) is not part of the sources, so
those operations are modelled from the specification, as marked on each
definition.

Modelling conventions: opaque identifiers (session handles, token
strings, anti-csrf values) are Nat; JSON objects are association lists
from String to String (the flows under study only use flat
string-to-string objects); the remote core's persistent store, the
issued-token registry and the process-wide instrumentation log are
fields of an explicit `CoreState` threaded through every operation;
fallible operations return `Except SessionErr`; a cleared cookie is a
`CookieInstr` with value `none` and expiry `0` (the epoch).
-/

/-- JSON object payloads, modelled as association lists from string keys to
string values. -/
abbrev JsonObj := List (String × String)

/-- Instrumentation events recorded in the process-wide log
(supertokens_python.process_state): the only event the session tests
observe is `CALLING_SERVICE_IN_VERIFY`, recorded when `get_session`
falls back to calling the remote core. -/
inductive AllowedProcessStates where
  | CALLING_SERVICE_IN_VERIFY
  deriving DecidableEq, Repr

/-- A token as returned to the caller: opaque value, expiry and creation
time, following the token data model of the spec. -/
structure TokenInfo where
  token : Nat
  expiry : Nat
  createdTime : Nat
  deriving DecidableEq, Repr

/-- Decoded contents of a self-contained access token.  The field
`requiresCoreCheck` models the condition under which local verification
is inconclusive (the token is past the local-expiry threshold; in the
source this is the presence of a parent refresh-token hash on a token
freshly produced by `refresh_session`), forcing a core call. -/
structure AccessTokenInfo where
  handle : Nat
  userId : String
  payload : JsonObj
  antiCsrf : Option Nat
  expiry : Nat
  createdTime : Nat
  requiresCoreCheck : Bool
  deriving DecidableEq, Repr

/-- Decoded contents of a refresh token. -/
structure RefreshTokenInfo where
  handle : Nat
  userId : String
  expiry : Nat
  createdTime : Nat
  deriving DecidableEq, Repr

/-- A session record as persisted by the remote core. -/
structure SessionRecord where
  userId : String
  sessionData : JsonObj
  accessTokenPayload : JsonObj
  expiry : Nat
  timeCreated : Nat
  deriving DecidableEq, Repr

/-- The state visible to the SDK: the core's session store, the issued
token registries (modelling decodability of the self-contained tokens),
a counter for fresh identifiers, the current time, and the process-wide
instrumentation log. -/
structure CoreState where
  sessions : List (Nat × SessionRecord)
  accessTokens : List (Nat × AccessTokenInfo)
  refreshTokens : List (Nat × RefreshTokenInfo)
  counter : Nat
  time : Nat
  history : List AllowedProcessStates
  deriving DecidableEq, Repr

/-- An initial state with no sessions and an empty instrumentation log. -/
def CoreState.empty : CoreState :=
  { sessions := [], accessTokens := [], refreshTokens := [], counter := 0,
    time := 1000, history := [] }

/-- The error taxonomy of the session protocol (spec section 7). -/
inductive SessionErr where
  | tryRefreshToken
  | unauthorised
  | tokenTheftDetected
  | general
  deriving DecidableEq, Repr

/-- The `session` part of a core response: handle, user id and the
payload embedded in the JWT. -/
structure SessionLite where
  handle : Nat
  userId : String
  userDataInJWT : JsonObj
  deriving DecidableEq, Repr

/-- Result shape of `create_new_session` and `refresh_session`: session
plus the full new token set. -/
structure SessionTokens where
  session : SessionLite
  accessToken : TokenInfo
  refreshToken : TokenInfo
  idRefreshToken : TokenInfo
  antiCsrfToken : Option Nat
  deriving DecidableEq, Repr

/-- Result shape of `get_session`: the session, plus a new access token
only when the core was consulted and rotated the token. -/
structure GetSessionResult where
  session : SessionLite
  accessToken : Option TokenInfo
  deriving DecidableEq, Repr

/-- The introspection read model returned by `get_session_information`. -/
structure SessionInformation where
  sessionHandle : Nat
  userId : String
  sessionData : JsonObj
  expiry : Nat
  timeCreated : Nat
  accessTokenPayload : JsonObj
  deriving DecidableEq, Repr

/-- Result shape of `regenerate_access_token`. -/
structure RegenerateAccessTokenResult where
  session : SessionLite
  accessToken : Option TokenInfo
  deriving DecidableEq, Repr

/-- Access-token validity window (an internal tuning parameter per the
spec; any positive value works for the properties below). -/
def accessTokenLifetime : Nat := 3600

/-- Refresh-token/session validity window. -/
def refreshTokenLifetime : Nat := 144 * 3600

namespace SessionFunctions

/-- Modelled from the spec: `create_new_session` of session_functions.py is
not under src/.  Always contacts the core; allocates a fresh handle and a
full token set (access, refresh, id-refresh, anti-csrf), stores the session
record, and registers the issued tokens.  The fresh access token is locally
verifiable (`requiresCoreCheck := false`). -/
def create_new_session (st : CoreState) (userId : String) (atp sd : JsonObj) :
    SessionTokens × CoreState :=
  let h := st.counter
  let atTok := st.counter + 1
  let rtTok := st.counter + 2
  let idrtTok := st.counter + 3
  let act := st.counter + 4
  let atInfo : AccessTokenInfo :=
    { handle := h, userId := userId, payload := atp, antiCsrf := some act,
      expiry := st.time + accessTokenLifetime, createdTime := st.time,
      requiresCoreCheck := false }
  let rtInfo : RefreshTokenInfo :=
    { handle := h, userId := userId, expiry := st.time + refreshTokenLifetime,
      createdTime := st.time }
  let record : SessionRecord :=
    { userId := userId, sessionData := sd, accessTokenPayload := atp,
      expiry := st.time + refreshTokenLifetime, timeCreated := st.time }
  ({ session := { handle := h, userId := userId, userDataInJWT := atp },
     accessToken := { token := atTok, expiry := atInfo.expiry, createdTime := st.time },
     refreshToken := { token := rtTok, expiry := rtInfo.expiry, createdTime := st.time },
     idRefreshToken := { token := idrtTok, expiry := rtInfo.expiry, createdTime := st.time },
     antiCsrfToken := some act },
   { st with
     sessions := (h, record) :: st.sessions,
     accessTokens := (atTok, atInfo) :: st.accessTokens,
     refreshTokens := (rtTok, rtInfo) :: st.refreshTokens,
     counter := st.counter + 5 })

/-- Modelled from the spec: `get_session` of session_functions.py is not
under src/.  Local-first verification: decode the access token, check expiry
and (when requested) the anti-csrf binding, and only when local verification
is inconclusive (`requiresCoreCheck`, i.e. the token is past the
local-expiry threshold) call the core, recording
`CALLING_SERVICE_IN_VERIFY` in the process-wide log and rotating the access
token.  The purely local path performs no core call and leaves the state
untouched. -/
def get_session (st : CoreState) (accessToken : Nat) (antiCsrfToken : Option Nat)
    (doAntiCsrfCheck : Bool) (idRefreshToken : Option Nat) :
    Except SessionErr (GetSessionResult × CoreState) :=
  match idRefreshToken with
  | none => .error .unauthorised
  | some _ =>
    match st.accessTokens.lookup accessToken with
    | none => .error .tryRefreshToken
    | some info =>
      if info.expiry ≤ st.time then .error .tryRefreshToken
      else if doAntiCsrfCheck && antiCsrfToken != info.antiCsrf then
        .error .tryRefreshToken
      else if info.requiresCoreCheck then
        match st.sessions.lookup info.handle with
        | none => .error .unauthorised
        | some _ =>
          let newTok := st.counter
          let newInfo : AccessTokenInfo :=
            { info with
              requiresCoreCheck := false
              expiry := st.time + accessTokenLifetime
              createdTime := st.time }
          .ok ({ session := { handle := info.handle, userId := info.userId,
                              userDataInJWT := info.payload },
                 accessToken := some { token := newTok, expiry := newInfo.expiry,
                                       createdTime := st.time } },
               { st with
                 accessTokens := (newTok, newInfo) :: st.accessTokens,
                 counter := st.counter + 1,
                 history := st.history ++ [AllowedProcessStates.CALLING_SERVICE_IN_VERIFY] })
      else
        .ok ({ session := { handle := info.handle, userId := info.userId,
                            userDataInJWT := info.payload },
               accessToken := none }, st)

/-- Modelled from the spec: `refresh_session` of session_functions.py is not
under src/.  Always calls the core; fails with `UnauthorisedError` when the
refresh token is unknown, expired, or its session is gone; otherwise rotates
the whole token set, preserving the session handle.  The new access token
requires a core check on its first verification (`requiresCoreCheck :=
true`). -/
def refresh_session (st : CoreState) (refreshToken : Nat) (antiCsrfToken : Option Nat)
    (containsCustomHeader : Bool) : Except SessionErr (SessionTokens × CoreState) :=
  match st.refreshTokens.lookup refreshToken with
  | none => .error .unauthorised
  | some rinfo =>
    if rinfo.expiry ≤ st.time then .error .unauthorised
    else
      match st.sessions.lookup rinfo.handle with
      | none => .error .unauthorised
      | some srec =>
        let atTok := st.counter
        let rtTok := st.counter + 1
        let idrtTok := st.counter + 2
        let act := st.counter + 3
        let atInfo : AccessTokenInfo :=
          { handle := rinfo.handle, userId := rinfo.userId,
            payload := srec.accessTokenPayload, antiCsrf := some act,
            expiry := st.time + accessTokenLifetime, createdTime := st.time,
            requiresCoreCheck := true }
        let rtInfo : RefreshTokenInfo :=
          { handle := rinfo.handle, userId := rinfo.userId,
            expiry := st.time + refreshTokenLifetime, createdTime := st.time }
        .ok ({ session := { handle := rinfo.handle, userId := rinfo.userId,
                            userDataInJWT := srec.accessTokenPayload },
               accessToken := { token := atTok, expiry := atInfo.expiry,
                                createdTime := st.time },
               refreshToken := { token := rtTok, expiry := rtInfo.expiry,
                                 createdTime := st.time },
               idRefreshToken := { token := idrtTok, expiry := rtInfo.expiry,
                                   createdTime := st.time },
               antiCsrfToken := some act },
             { st with
               accessTokens := (atTok, atInfo) :: st.accessTokens,
               refreshTokens := (rtTok, rtInfo) :: st.refreshTokens,
               counter := st.counter + 4 })

/-- Modelled from the spec: `revoke_session` of session_functions.py is not
under src/.  Calls the core; returns `false` (never an error) when the
handle does not exist, removes the session and returns `true` otherwise. -/
def revoke_session (st : CoreState) (sessionHandle : Nat) : Bool × CoreState :=
  if (st.sessions.lookup sessionHandle).isSome then
    (true, { st with sessions := st.sessions.filter (fun p => p.1 != sessionHandle) })
  else
    (false, st)

/-- Modelled from the spec: `get_session_information` is not under src/.
Introspection read model for a session handle, independent of the live
verification flow. -/
def get_session_information (st : CoreState) (sessionHandle : Nat) :
    Option SessionInformation :=
  (st.sessions.lookup sessionHandle).map fun r =>
    { sessionHandle := sessionHandle, userId := r.userId, sessionData := r.sessionData,
      expiry := r.expiry, timeCreated := r.timeCreated,
      accessTokenPayload := r.accessTokenPayload }

/-- Replace the record stored under a key in the core's session store. -/
def setSessionRecord (l : List (Nat × SessionRecord)) (k : Nat) (v : SessionRecord) :
    List (Nat × SessionRecord) :=
  l.map fun p => if p.1 = k then (k, v) else p

/-- Modelled from the spec: `update_access_token_payload` is not under src/.
Advisory mutation: returns `false` (never an error) on an unknown handle. -/
def update_access_token_payload (st : CoreState) (sessionHandle : Nat)
    (newPayload : JsonObj) : Bool × CoreState :=
  match st.sessions.lookup sessionHandle with
  | none => (false, st)
  | some r =>
    (true, { st with sessions := setSessionRecord st.sessions sessionHandle
                                   { r with accessTokenPayload := newPayload } })

/-- Modelled from the spec: `update_session_data` is not under src/.
Advisory mutation: returns `false` (never an error) on an unknown handle. -/
def update_session_data (st : CoreState) (sessionHandle : Nat)
    (newData : JsonObj) : Bool × CoreState :=
  match st.sessions.lookup sessionHandle with
  | none => (false, st)
  | some r =>
    (true, { st with sessions := setSessionRecord st.sessions sessionHandle
                                   { r with sessionData := newData } })

/-- Modelled from the spec: `get_all_session_handles_for_user` is not under
src/.  Lists the handles of the live sessions belonging to a user. -/
def get_all_session_handles_for_user (st : CoreState) (userId : String) : List Nat :=
  (st.sessions.filter (fun p => p.2.userId == userId)).map (fun p => p.1)

/-- Modelled from the spec: `regenerate_access_token` is not under src/.
Produces a new access token carrying the updated payload while preserving
the handle of the underlying session; returns `none` when the token or its
session is unknown. -/
def regenerate_access_token (st : CoreState) (accessToken : Nat)
    (newPayload : JsonObj) : Option (RegenerateAccessTokenResult × CoreState) :=
  match st.accessTokens.lookup accessToken with
  | none => none
  | some info =>
    match st.sessions.lookup info.handle with
    | none => none
    | some r =>
      let newTok := st.counter
      let newInfo : AccessTokenInfo :=
        { info with
          payload := newPayload
          expiry := st.time + accessTokenLifetime
          createdTime := st.time }
      some ({ session := { handle := info.handle, userId := info.userId,
                           userDataInJWT := newPayload },
              accessToken := some { token := newTok, expiry := newInfo.expiry,
                                    createdTime := st.time } },
            { st with
              sessions := setSessionRecord st.sessions info.handle
                            { r with accessTokenPayload := newPayload },
              accessTokens := (newTok, newInfo) :: st.accessTokens,
              counter := st.counter + 1 })

end SessionFunctions

/-- The value carried by the `id-refresh-token` response header: either a
token with its expiry, or the literal `remove`. -/
inductive IdRefreshHeaderValue where
  | tokenValue (token : Nat) (expiry : Nat)
  | remove
  deriving DecidableEq, Repr

/-- A cookie-set instruction.  A cleared cookie is modelled as value
`none` together with the epoch expiry `0` (the source clears cookies by
setting the empty string value and the epoch date). -/
structure CookieInstr where
  value : Option Nat
  expires : Nat
  deriving DecidableEq, Repr

/-- The response as far as the session subsystem mutates it: status,
JSON body, the three token cookies, and the three session headers. -/
structure HttpResponse where
  statusCode : Nat
  body : JsonObj
  accessTokenCookie : Option CookieInstr
  refreshTokenCookie : Option CookieInstr
  idRefreshTokenCookie : Option CookieInstr
  antiCsrfHeader : Option Nat
  frontTokenHeader : Option Nat
  idRefreshTokenHeader : Option IdRefreshHeaderValue
  deriving DecidableEq, Repr

/-- A response before the session subsystem touched it. -/
def blankResponse : HttpResponse :=
  { statusCode := 200, body := [], accessTokenCookie := none,
    refreshTokenCookie := none, idRefreshTokenCookie := none,
    antiCsrfHeader := none, frontTokenHeader := none,
    idRefreshTokenHeader := none }

/-- Modelled from the spec: the request-scoped session container
(session_class.py is not under src/).  It records the verified session,
any newly issued tokens awaiting emission into the response, and the
`removeCookies` flag set by revoking the session mid-request. -/
structure SessionContainer where
  handle : Nat
  userId : String
  userDataInJWT : JsonObj
  accessToken : Nat
  newAccessTokenInfo : Option TokenInfo
  newRefreshTokenInfo : Option TokenInfo
  newIdRefreshTokenInfo : Option TokenInfo
  newAntiCsrfToken : Option Nat
  removeCookies : Bool
  deriving DecidableEq, Repr

/-- Modelled from the spec: the container's `revoke_session` method is not
under src/.  It revokes the session at the core and marks the container so
that the response layer overlays cookie-clearing instructions. -/
def SessionContainer.revoke_session (s : SessionContainer) (st : CoreState) :
    SessionContainer × CoreState :=
  let res := SessionFunctions.revoke_session st s.handle
  ({ s with removeCookies := true }, res.2)

/-- Modelled from the spec: the response middleware that turns the final
session container into cookie/header instructions is not under src/.  When
the container is marked `removeCookies` the three token cookies are cleared
(empty value, epoch expiry), the `id-refresh-token` header is the literal
`remove`, and no `anti-csrf` or `front-token` headers are set; otherwise any
newly issued tokens are written as cookies together with the `anti-csrf`,
`front-token` and `id-refresh-token` headers. -/
def attach_tokens_to_response (s : SessionContainer) (r : HttpResponse) : HttpResponse :=
  if s.removeCookies then
    { r with
      accessTokenCookie := some { value := none, expires := 0 }
      refreshTokenCookie := some { value := none, expires := 0 }
      idRefreshTokenCookie := some { value := none, expires := 0 }
      antiCsrfHeader := none
      frontTokenHeader := none
      idRefreshTokenHeader := some IdRefreshHeaderValue.remove }
  else
    { r with
      accessTokenCookie :=
        match s.newAccessTokenInfo with
        | some t => some { value := some t.token, expires := t.expiry }
        | none => r.accessTokenCookie
      refreshTokenCookie :=
        match s.newRefreshTokenInfo with
        | some t => some { value := some t.token, expires := t.expiry }
        | none => r.refreshTokenCookie
      idRefreshTokenCookie :=
        match s.newIdRefreshTokenInfo with
        | some t => some { value := some t.token, expires := t.expiry }
        | none => r.idRefreshTokenCookie
      antiCsrfHeader :=
        match s.newAntiCsrfToken with
        | some a => some a
        | none => r.antiCsrfHeader
      frontTokenHeader :=
        match s.newAccessTokenInfo with
        | some t => some t.expiry
        | none => r.frontTokenHeader
      idRefreshTokenHeader :=
        match s.newIdRefreshTokenInfo with
        | some t => some (IdRefreshHeaderValue.tokenValue t.token t.expiry)
        | none => r.idRefreshTokenHeader }

/-- Modelled from the spec: the default `refresh_post` API implementation is
not under src/.  It runs the refresh protocol and wraps the rotated token
set into a request-scoped session container (cookies are not yet written:
emission happens from the final return value of the override chain). -/
def refresh_post (st : CoreState) (refreshToken : Nat) (antiCsrfToken : Option Nat) :
    Except SessionErr (SessionContainer × CoreState) :=
  match SessionFunctions.refresh_session st refreshToken antiCsrfToken true with
  | .error e => .error e
  | .ok (res, st') =>
    .ok ({ handle := res.session.handle, userId := res.session.userId,
           userDataInJWT := res.session.userDataInJWT,
           accessToken := res.accessToken.token,
           newAccessTokenInfo := some res.accessToken,
           newRefreshTokenInfo := some res.refreshToken,
           newIdRefreshTokenInfo := some res.idRefreshToken,
           newAntiCsrfToken := res.antiCsrfToken,
           removeCookies := false }, st')

/-- An override of the refresh endpoint: it receives the container produced
by the original `refresh_post`, the state and the response under
construction, and returns their final versions. -/
abbrev RefreshOverride :=
  SessionContainer → CoreState → HttpResponse → SessionContainer × CoreState × HttpResponse

/-- Modelled from the spec: the refresh endpoint orchestration is not under
src/.  It runs the (possibly overridden) `refresh_post` chain and derives
the response cookie/header instructions strictly from the final returned
container. -/
def handle_refresh_api (ov : RefreshOverride) (st : CoreState) (refreshToken : Nat)
    (antiCsrfToken : Option Nat) : Except SessionErr (HttpResponse × CoreState) :=
  match refresh_post st refreshToken antiCsrfToken with
  | .error e => .error e
  | .ok (s, st1) =>
    let out := ov s st1 blankResponse
    .ok (attach_tokens_to_response out.1 out.2.2, out.2.1)

/-- The test override that revokes the returned session and returns
normally, leaving the status at 200. -/
def override_refresh_revoke : RefreshOverride := fun s st r =>
  let res := SessionContainer.revoke_session s st
  (res.1, res.2, r)

/-- The test override that revokes the returned session and additionally
sets the response status to 401. -/
def override_refresh_revoke_401 : RefreshOverride := fun s st r =>
  let res := SessionContainer.revoke_session s st
  (res.1, res.2, { r with statusCode := 401, body := [] })

/-- The test override that only sets the response status to 401, without
revoking the session. -/
def override_refresh_just_401 : RefreshOverride := fun s st r =>
  (s, st, { r with statusCode := 401, body := [] })

/-- Modelled from the spec: the overridable recipe interface
(interfaces.py RecipeInterface is not under src/).  Only the capability
exercised by the container claims is included; each field is
independently replaceable by a decorating implementation. -/
structure RecipeInterface where
  get_session_information : CoreState → Nat → Option SessionInformation

/-- The default recipe implementation, delegating to the session
functions. -/
def baseRecipeInterface : RecipeInterface :=
  { get_session_information := fun st h => SessionFunctions.get_session_information st h }

/-- A decorating override of `get_session_information`: it calls through
to the original implementation and mutates the session data of the
result, without re-implementing the protocol. -/
def decorate_get_session_information (mutate : JsonObj → JsonObj)
    (oi : RecipeInterface) : RecipeInterface :=
  { oi with
    get_session_information := fun st h =>
      (oi.get_session_information st h).map fun info =>
        { info with sessionData := mutate info.sessionData } }

/-- Modelled from the spec: the container's `get_session_data` method is
not under src/.  It reads the session data through the (possibly
overridden) recipe interface. -/
def SessionContainer.get_session_data (s : SessionContainer)
    (ri : RecipeInterface) (st : CoreState) : Option JsonObj :=
  (ri.get_session_information st s.handle).map fun info => info.sessionData

/-- Modelled from the spec: `create_new_session` of the asyncio module
returns a request-bound session container; not under src/. -/
def create_new_session_container (st : CoreState) (userId : String)
    (atp sd : JsonObj) : SessionContainer × CoreState :=
  let res := SessionFunctions.create_new_session st userId atp sd
  ({ handle := res.1.session.handle, userId := res.1.session.userId,
     userDataInJWT := res.1.session.userDataInJWT,
     accessToken := res.1.accessToken.token,
     newAccessTokenInfo := some res.1.accessToken,
     newRefreshTokenInfo := some res.1.refreshToken,
     newIdRefreshTokenInfo := some res.1.idRefreshToken,
     newAntiCsrfToken := res.1.antiCsrfToken,
     removeCookies := false }, res.2)

/-- The token material a signout request carries. -/
structure SignoutRequest where
  accessTokenCookie : Option Nat
  idRefreshTokenCookie : Option Nat
  antiCsrfHeader : Option Nat
  deriving DecidableEq, Repr

/-- Modelled from the spec: the request-level `get_session` of the recipe
implementation is not under src/.  With `session_required := false` a
missing or unverifiable session yields `none` instead of aborting the
request; `anti_csrf_check := none` applies the default check for an
unsafe-method request.  Verification itself is local-first via
`SessionFunctions.get_session`. -/
def recipe_get_session (st : CoreState) (req : SignoutRequest)
    (anti_csrf_check : Option Bool) (session_required : Bool) :
    Except SessionErr (Option SessionContainer × CoreState) :=
  match req.idRefreshTokenCookie with
  | none => if session_required then .error .unauthorised else .ok (none, st)
  | some idrt =>
    match req.accessTokenCookie with
    | none => if session_required then .error .tryRefreshToken else .ok (none, st)
    | some tok =>
      let doCheck := anti_csrf_check.getD true
      match SessionFunctions.get_session st tok req.antiCsrfHeader doCheck (some idrt) with
      | .ok (res, st') =>
        .ok (some { handle := res.session.handle, userId := res.session.userId,
                    userDataInJWT := res.session.userDataInJWT, accessToken := tok,
                    newAccessTokenInfo := res.accessToken,
                    newRefreshTokenInfo := none, newIdRefreshTokenInfo := none,
                    newAntiCsrfToken := none, removeCookies := false }, st')
      | .error e => if session_required then .error e else .ok (none, st)

/-- The signout endpoint body: it receives the optional session and the
state and returns the final session, the state and the JSON body. -/
abbrev SignoutPost :=
  Option SessionContainer → CoreState → Option SessionContainer × CoreState × JsonObj

/-- The API interface of the session recipe, restricted to the signout
endpoint: a disable flag and an optional (overridable) endpoint body,
mirroring `disable_signout_post` and `signout_post` of the source. -/
structure APIInterface where
  disable_signout_post : Bool
  signout_post : Option SignoutPost

/-- The outcome of running the signout handler: the response written (or
`none` when the endpoint declined to handle the request), the final
state, and whether `get_session` was invoked on the recipe
implementation. -/
structure SignoutOutcome where
  response : Option HttpResponse
  state : CoreState
  getSessionCalled : Bool
  deriving DecidableEq, Repr

/-- Modelled from the spec: the default `signout_post` implementation is
not under src/.  It revokes the session when one was found and returns
the OK body. -/
def default_signout_post : SignoutPost := fun sess st =>
  match sess with
  | none => (none, st, [("status", "OK")])
  | some s =>
    let res := SessionContainer.revoke_session s st
    (some res.1, res.2, [("status", "OK")])

/-- A 200 response carrying a JSON body, as written by
`send_200_response` of the source utilities. -/
def send_200_response (body : JsonObj) : HttpResponse :=
  { blankResponse with statusCode := 200, body := body }

/-- Translated from src/supertokens_python/recipe/session/api/signout.py:
when `disable_signout_post` is set or `signout_post` is absent the handler
returns `None` without fetching a session or writing a response; otherwise
it fetches the session with `anti_csrf_check := none` and
`session_required := false`, runs `signout_post`, and writes the 200
response.  The final cookie/header emission from the returned container is
modelled from the spec (the middleware is not under src/). -/
def handle_signout_api (impl : APIInterface) (st : CoreState) (req : SignoutRequest) :
    SignoutOutcome :=
  if impl.disable_signout_post then
    { response := none, state := st, getSessionCalled := false }
  else
    match impl.signout_post with
    | none => { response := none, state := st, getSessionCalled := false }
    | some sp =>
      match recipe_get_session st req none false with
      | .error _ => { response := none, state := st, getSessionCalled := true }
      | .ok (sessOpt, st1) =>
        let out := sp sessOpt st1
        let resp0 := send_200_response out.2.2
        let resp1 :=
          match out.1 with
          | some s => attach_tokens_to_response s resp0
          | none => resp0
        { response := some resp1, state := out.2.1, getSessionCalled := true }

/-- The API interface with the default signout endpoint enabled. -/
def defaultAPIInterface : APIInterface :=
  { disable_signout_post := false, signout_post := some default_signout_post }

/-- The signout test scenario: create a session, revoke it out of band,
then call the signout endpoint with the (still locally valid) tokens of
the revoked session. -/
def signout_after_revoke_scenario (st : CoreState) (userId : String) : SignoutOutcome :=
  let created := SessionFunctions.create_new_session st userId [] []
  let st2 := (SessionFunctions.revoke_session created.2 created.1.session.handle).2
  handle_signout_api defaultAPIInterface st2
    { accessTokenCookie := some created.1.accessToken.token,
      idRefreshTokenCookie := some created.1.idRefreshToken.token,
      antiCsrfHeader := created.1.antiCsrfToken }

/-- Create a session for the user `someUser` a number of times in a row,
as the many-sessions test does. -/
def createManySessions : Nat → CoreState → CoreState
  | 0, st => st
  | n + 1, st =>
    createManySessions n
      (SessionFunctions.create_new_session st "someUser"
        [("someKey", "someValue")] []).2

/-- The state after creating seven sessions for `someUser` from the
initial state. -/
def sevenSessionsState : CoreState := createManySessions 7 CoreState.empty

/-- The session handles of `someUser` in the seven-sessions state. -/
def sevenHandles : List Nat :=
  SessionFunctions.get_all_session_handles_for_user sevenSessionsState "someUser"

/-- The state after creating one session from the initial state: it holds
session handle 0, access token 1, refresh token 2, id-refresh token 3 and
anti-csrf token 4. -/
def stA : CoreState :=
  (SessionFunctions.create_new_session CoreState.empty "user1" [] []).2

/-- The decoded access token 1 of `stA`. -/
def infoA : AccessTokenInfo :=
  { handle := 0, userId := "user1", payload := [], antiCsrf := some 4,
    expiry := 4600, createdTime := 1000, requiresCoreCheck := false }

/-- The token set produced by refreshing session 0 of `stA`. -/
def refreshedTokens : SessionTokens :=
  match SessionFunctions.refresh_session stA 2 (some 4) true with
  | .ok p => p.1
  | .error _ => (SessionFunctions.create_new_session CoreState.empty "user1" [] []).1

/-- The state after refreshing session 0 of `stA`. -/
def refreshedState : CoreState :=
  match SessionFunctions.refresh_session stA 2 (some 4) true with
  | .ok p => p.2
  | .error _ => stA

/-- The response produced by the refresh endpoint on `stA` under the
revoking override that keeps the 200 status. -/
def revokeRefreshResponse200 : HttpResponse :=
  match handle_refresh_api override_refresh_revoke stA 2 (some 4) with
  | .ok p => p.1
  | .error _ => blankResponse

/-- The state produced by the refresh endpoint on `stA` under the
revoking override that keeps the 200 status. -/
def revokeRefreshState200 : CoreState :=
  match handle_refresh_api override_refresh_revoke stA 2 (some 4) with
  | .ok p => p.2
  | .error _ => stA

/-- The response produced by the refresh endpoint on `stA` under the
revoking override that also sets status 401. -/
def revokeRefreshResponse401 : HttpResponse :=
  match handle_refresh_api override_refresh_revoke_401 stA 2 (some 4) with
  | .ok p => p.1
  | .error _ => blankResponse

/-- The state produced by the refresh endpoint on `stA` under the
revoking override that also sets status 401. -/
def revokeRefreshState401 : CoreState :=
  match handle_refresh_api override_refresh_revoke_401 stA 2 (some 4) with
  | .ok p => p.2
  | .error _ => stA

/-- The response produced by the refresh endpoint on `stA` under the
override that only sets status 401 without revoking. -/
def just401Response : HttpResponse :=
  match handle_refresh_api override_refresh_just_401 stA 2 (some 4) with
  | .ok p => p.1
  | .error _ => blankResponse

/-- The state produced by the refresh endpoint on `stA` under the
override that only sets status 401 without revoking. -/
def just401State : CoreState :=
  match handle_refresh_api override_refresh_just_401 stA 2 (some 4) with
  | .ok p => p.2
  | .error _ => stA

/-- An API interface whose signout endpoint is disabled both ways. -/
def disabledAPIInterface : APIInterface :=
  { disable_signout_post := true, signout_post := none }

/-- An API interface whose signout endpoint body is absent. -/
def absentSignoutAPIInterface : APIInterface :=
  { disable_signout_post := false, signout_post := none }

/-- All three token cookies cleared to the empty value with epoch expiry,
the id-refresh-token header equal to the literal `remove`, and no
anti-csrf or front-token headers. -/
def tokensCleared (r : HttpResponse) : Prop :=
  r.accessTokenCookie = some { value := none, expires := 0 } ∧
  r.refreshTokenCookie = some { value := none, expires := 0 } ∧
  r.idRefreshTokenCookie = some { value := none, expires := 0 } ∧
  r.idRefreshTokenHeader = some IdRefreshHeaderValue.remove ∧
  r.antiCsrfHeader = none ∧
  r.frontTokenHeader = none

/-- A cookie instruction that sets a non-empty value with a non-epoch
expiry. -/
def cookieSetFresh (c : Option CookieInstr) : Bool :=
  match c with
  | some ci => ci.value.isSome && ci.expires != 0
  | none => false

theorem lookup_filter_ne_self (l : List (Nat × SessionRecord)) (k : Nat) :
    (l.filter (fun p => p.1 != k)).lookup k = none := by
  induction l with
  | nil => rfl
  | cons a t ih =>
    by_cases hk : a.1 = k
    · have hb : (a.1 != k) = false := by simp [hk]
      simp [List.filter_cons, hb, ih]
    · have hb : (a.1 != k) = true := by simp [hk]
      have hbe : (k == a.1) = false := beq_eq_false_iff_ne.mpr (Ne.symm hk)
      simp [List.filter_cons, hb, List.lookup, hbe, ih]

theorem setSessionRecord_cons (a : Nat × SessionRecord)
    (t : List (Nat × SessionRecord)) (k : Nat) (v : SessionRecord) :
    SessionFunctions.setSessionRecord (a :: t) k v =
      (if a.1 = k then (k, v) else a) :: SessionFunctions.setSessionRecord t k v := rfl

theorem lookup_setSessionRecord (l : List (Nat × SessionRecord)) (k : Nat)
    (v : SessionRecord) (h : (l.lookup k).isSome = true) :
    (SessionFunctions.setSessionRecord l k v).lookup k = some v := by
  induction l with
  | nil => simp [List.lookup] at h
  | cons a t ih =>
    rw [setSessionRecord_cons]
    by_cases hk : a.1 = k
    · rw [if_pos hk]
      simp [List.lookup]
    · rw [if_neg hk]
      have hbe : (k == a.1) = false := beq_eq_false_iff_ne.mpr (Ne.symm hk)
      simp only [List.lookup, hbe] at h ⊢
      exact ih h

/-- C4: `revoke_session` is idempotent and total over handles: on an
existing handle the first call returns `true` and a second call on the
resulting state returns `false`; on a handle that does not exist it
returns `false` and leaves the state unchanged, rather than raising (the
operation is total, returning a plain boolean). -/
theorem revoke_session_idempotent (st : CoreState) (h : Nat) :
    ((st.sessions.lookup h).isSome = true →
      (SessionFunctions.revoke_session st h).1 = true ∧
      (SessionFunctions.revoke_session (SessionFunctions.revoke_session st h).2 h).1 = false) ∧
    ((st.sessions.lookup h).isSome = false →
      SessionFunctions.revoke_session st h = (false, st)) := by
  constructor
  · intro hs
    refine ⟨by simp [SessionFunctions.revoke_session, hs], ?_⟩
    simp [SessionFunctions.revoke_session, hs, lookup_filter_ne_self]
  · intro hs
    simp [SessionFunctions.revoke_session, hs]

theorem revoke_session_idempotent_witness :
    ((SessionFunctions.revoke_session stA 0).1 = true ∧
      (SessionFunctions.revoke_session (SessionFunctions.revoke_session stA 0).2 0).1 = false) ∧
    SessionFunctions.revoke_session stA 123 = (false, stA) :=
  ⟨(revoke_session_idempotent stA 0).1 (by decide),
   (revoke_session_idempotent stA 123).2 (by decide)⟩

/-- C6: on a handle that does not correspond to an existing session,
`update_access_token_payload` and `update_session_data` both return
`false` and leave the state unchanged; neither can raise, being total
functions into a plain boolean result. -/
theorem update_unknown_handle_returns_false (st : CoreState) (h : Nat)
    (p d : JsonObj) (hs : st.sessions.lookup h = none) :
    SessionFunctions.update_access_token_payload st h p = (false, st) ∧
    SessionFunctions.update_session_data st h d = (false, st) := by
  constructor
  · simp [SessionFunctions.update_access_token_payload, hs]
  · simp [SessionFunctions.update_session_data, hs]

theorem update_unknown_handle_returns_false_witness :
    SessionFunctions.update_access_token_payload stA 999 [("foo", "bar")] = (false, stA) ∧
    SessionFunctions.update_session_data stA 999 [("foo", "bar")] = (false, stA) :=
  update_unknown_handle_returns_false stA 999 [("foo", "bar")] [("foo", "bar")] (by decide)

/-- C7: creating a session for `someUser` seven times from the initial
state yields exactly 7 distinct session handles for that user; each
belongs to `someUser`, and on each handle `update_access_token_payload`
and `update_session_data` return `true` and a subsequent
`get_session_information` reads back exactly the updated payload and
session data. -/
theorem seven_sessions_distinct_handles_and_roundtrip :
    sevenHandles.length = 7 ∧ sevenHandles.Nodup ∧
    (∀ h ∈ sevenHandles,
      (SessionFunctions.get_session_information sevenSessionsState h).map
        (fun i => i.userId) = some "someUser") ∧
    (∀ h ∈ sevenHandles,
      (SessionFunctions.update_access_token_payload sevenSessionsState h
        [("someKey2", "someValue")]).1 = true ∧
      (SessionFunctions.update_session_data
        (SessionFunctions.update_access_token_payload sevenSessionsState h
          [("someKey2", "someValue")]).2 h [("foo", "bar")]).1 = true ∧
      (SessionFunctions.get_session_information
        (SessionFunctions.update_session_data
          (SessionFunctions.update_access_token_payload sevenSessionsState h
            [("someKey2", "someValue")]).2 h [("foo", "bar")]).2 h).map
        (fun i => (i.accessTokenPayload, i.sessionData))
        = some ([("someKey2", "someValue")], [("foo", "bar")])) := by
  decide

/-- C8: a decorating override of `get_session_information` that calls
through to the original and mutates the returned session data is
observed end to end: a session container created afterwards reads its
session data through the overridden recipe interface and sees the
mutated result. -/
theorem recipe_override_observed_in_container (st : CoreState) (uid : String)
    (atp sd : JsonObj) (mutate : JsonObj → JsonObj) :
    SessionContainer.get_session_data
      (create_new_session_container st uid atp sd).1
      (decorate_get_session_information mutate baseRecipeInterface)
      (create_new_session_container st uid atp sd).2
      = some (mutate sd) := by
  simp [create_new_session_container, SessionContainer.get_session_data,
    decorate_get_session_information, baseRecipeInterface,
    SessionFunctions.get_session_information, SessionFunctions.create_new_session,
    List.lookup]

/-- C9: the signout endpoint is individually disableable: whenever
`disable_signout_post` is set or `signout_post` is `none`,
`handle_signout_api` returns no response, does not call `get_session` on
the recipe implementation, and leaves the state untouched. -/
theorem signout_disabled_no_session_fetch (impl : APIInterface) (st : CoreState)
    (req : SignoutRequest)
    (hd : impl.disable_signout_post = true ∨ impl.signout_post = none) :
    handle_signout_api impl st req =
      { response := none, state := st, getSessionCalled := false } := by
  rcases hd with hd | hd
  · simp [handle_signout_api, hd]
  · cases hdis : impl.disable_signout_post <;>
      simp [handle_signout_api, hd, hdis]

theorem signout_disabled_no_session_fetch_witness :
    handle_signout_api disabledAPIInterface stA
        { accessTokenCookie := some 1, idRefreshTokenCookie := some 3,
          antiCsrfHeader := some 4 } =
      { response := none, state := stA, getSessionCalled := false } ∧
    handle_signout_api absentSignoutAPIInterface stA
        { accessTokenCookie := some 1, idRefreshTokenCookie := some 3,
          antiCsrfHeader := some 4 } =
      { response := none, state := stA, getSessionCalled := false } :=
  ⟨signout_disabled_no_session_fetch disabledAPIInterface stA
      { accessTokenCookie := some 1, idRefreshTokenCookie := some 3,
        antiCsrfHeader := some 4 } (Or.inl rfl),
   signout_disabled_no_session_fetch absentSignoutAPIInterface stA
      { accessTokenCookie := some 1, idRefreshTokenCookie := some 3,
        antiCsrfHeader := some 4 } (Or.inr rfl)⟩

/-- C1: verification is local-first.  Verifying a freshly created session
with its fresh access token succeeds without recording the
`CALLING_SERVICE_IN_VERIFY` event (no core call); verifying with the
access token produced by `refresh_session` (a token past the local-expiry
threshold) succeeds and records exactly one `CALLING_SERVICE_IN_VERIFY`
event (exactly one core call). -/
theorem local_first_verification (st : CoreState) (uid : String) (atp sd : JsonObj)
    (rt : Nat) (ac : Option Nat) :
    ((SessionFunctions.get_session
        (SessionFunctions.create_new_session st uid atp sd).2
        (SessionFunctions.create_new_session st uid atp sd).1.accessToken.token
        (SessionFunctions.create_new_session st uid atp sd).1.antiCsrfToken
        true
        (some (SessionFunctions.create_new_session st uid atp sd).1.idRefreshToken.token)).toOption.map
        (fun p => p.2.history.count AllowedProcessStates.CALLING_SERVICE_IN_VERIFY)
      = some ((SessionFunctions.create_new_session st uid atp sd).2.history.count
          AllowedProcessStates.CALLING_SERVICE_IN_VERIFY)) ∧
    (∀ res2 st2, SessionFunctions.refresh_session st rt ac true = .ok (res2, st2) →
      (SessionFunctions.get_session st2 res2.accessToken.token res2.antiCsrfToken true
        (some res2.idRefreshToken.token)).toOption.map
        (fun p => p.2.history.count AllowedProcessStates.CALLING_SERVICE_IN_VERIFY)
      = some (st2.history.count AllowedProcessStates.CALLING_SERVICE_IN_VERIFY + 1)) := by
  have hexp : ¬ (st.time + accessTokenLifetime ≤ st.time) := by
    simp only [accessTokenLifetime]
    omega
  constructor
  · simp [SessionFunctions.create_new_session, SessionFunctions.get_session,
      List.lookup, hexp, Except.toOption]
  · intro res2 st2 h
    cases hrt : st.refreshTokens.lookup rt with
    | none => simp [SessionFunctions.refresh_session, hrt] at h
    | some rinfo =>
      by_cases hre : rinfo.expiry ≤ st.time
      · simp [SessionFunctions.refresh_session, hrt, hre] at h
      · cases hss : st.sessions.lookup rinfo.handle with
        | none => simp [SessionFunctions.refresh_session, hrt, hre, hss] at h
        | some srec =>
          simp [SessionFunctions.refresh_session, hrt, hre, hss] at h
          obtain ⟨h1, h2⟩ := h
          subst h1
          subst h2
          simp [SessionFunctions.get_session, List.lookup, hexp, hss,
            Except.toOption, List.count_append, List.count_cons, List.count_nil]

theorem local_first_verification_witness :
    (SessionFunctions.get_session refreshedState refreshedTokens.accessToken.token
      refreshedTokens.antiCsrfToken true (some refreshedTokens.idRefreshToken.token)).toOption.map
      (fun p => p.2.history.count AllowedProcessStates.CALLING_SERVICE_IN_VERIFY)
    = some (refreshedState.history.count AllowedProcessStates.CALLING_SERVICE_IN_VERIFY + 1) :=
  (local_first_verification stA "user1" [] [] 2 (some 4)).2 refreshedTokens refreshedState
    (by rfl)

/-- C2: a refresh-endpoint override that revokes the returned session
container after the original `refresh_post` completes and then returns
normally produces a response with all three token cookies cleared to the
empty value with epoch expiry, the id-refresh-token header equal to
`remove`, and no anti-csrf or front-token headers — identically whether
the override leaves the status at 200 or additionally sets it to 401. -/
theorem refresh_override_revoke_clears_tokens (st : CoreState) (rt : Nat) (ac : Option Nat) :
    (∀ resp st2, handle_refresh_api override_refresh_revoke st rt ac = .ok (resp, st2) →
      resp.statusCode = 200 ∧ tokensCleared resp) ∧
    (∀ resp st2, handle_refresh_api override_refresh_revoke_401 st rt ac = .ok (resp, st2) →
      resp.statusCode = 401 ∧ tokensCleared resp) := by
  constructor
  · intro resp st2 h
    cases hrp : refresh_post st rt ac with
    | error e => simp [handle_refresh_api, hrp] at h
    | ok pr =>
      obtain ⟨s1, st1⟩ := pr
      simp [handle_refresh_api, hrp, override_refresh_revoke,
        SessionContainer.revoke_session, attach_tokens_to_response, blankResponse] at h
      obtain ⟨h1, h2⟩ := h
      subst h1
      simp [tokensCleared]
  · intro resp st2 h
    cases hrp : refresh_post st rt ac with
    | error e => simp [handle_refresh_api, hrp] at h
    | ok pr =>
      obtain ⟨s1, st1⟩ := pr
      simp [handle_refresh_api, hrp, override_refresh_revoke_401,
        SessionContainer.revoke_session, attach_tokens_to_response, blankResponse] at h
      obtain ⟨h1, h2⟩ := h
      subst h1
      simp [tokensCleared]

theorem refresh_override_revoke_clears_tokens_witness :
    (revokeRefreshResponse200.statusCode = 200 ∧ tokensCleared revokeRefreshResponse200) ∧
    (revokeRefreshResponse401.statusCode = 401 ∧ tokensCleared revokeRefreshResponse401) :=
  ⟨(refresh_override_revoke_clears_tokens stA 2 (some 4)).1
      revokeRefreshResponse200 revokeRefreshState200 (by rfl),
   (refresh_override_revoke_clears_tokens stA 2 (some 4)).2
      revokeRefreshResponse401 revokeRefreshState401 (by rfl)⟩

/-- C3: a refresh-endpoint override that only sets the status to 401
without revoking leaves the token material in the response: all three
token cookies carry non-empty values with non-epoch expiries, the
anti-csrf header is present, the id-refresh-token header is not the
literal `remove`, and the front-token header is present — clearing is
tied to revocation, not to the status code. -/
theorem refresh_override_only_401_keeps_tokens (st : CoreState) (rt : Nat)
    (ac : Option Nat) (resp : HttpResponse) (st2 : CoreState)
    (h : handle_refresh_api override_refresh_just_401 st rt ac = .ok (resp, st2)) :
    resp.statusCode = 401 ∧
    cookieSetFresh resp.accessTokenCookie = true ∧
    cookieSetFresh resp.refreshTokenCookie = true ∧
    cookieSetFresh resp.idRefreshTokenCookie = true ∧
    resp.antiCsrfHeader.isSome = true ∧
    resp.idRefreshTokenHeader ≠ some IdRefreshHeaderValue.remove ∧
    resp.frontTokenHeader.isSome = true := by
  cases hrt : st.refreshTokens.lookup rt with
  | none =>
    simp [handle_refresh_api, refresh_post, SessionFunctions.refresh_session, hrt] at h
  | some rinfo =>
    by_cases hre : rinfo.expiry ≤ st.time
    · simp [handle_refresh_api, refresh_post, SessionFunctions.refresh_session,
        hrt, hre] at h
    · cases hss : st.sessions.lookup rinfo.handle with
      | none =>
        simp [handle_refresh_api, refresh_post, SessionFunctions.refresh_session,
          hrt, hre, hss] at h
      | some srec =>
        simp [handle_refresh_api, refresh_post, SessionFunctions.refresh_session,
          hrt, hre, hss, override_refresh_just_401, attach_tokens_to_response,
          blankResponse] at h
        obtain ⟨h1, h2⟩ := h
        subst h1
        simp [cookieSetFresh, accessTokenLifetime, refreshTokenLifetime]

/-- C5: `regenerate_access_token` called with a valid access token and a
new payload returns a result whose `session.handle` equals the handle of
the session the token refers to (the handle is invariant across token
rotation), while the session's access token payload becomes exactly the
new payload. -/
theorem regenerate_access_token_preserves_handle (st : CoreState) (tok : Nat)
    (p : JsonObj) (info : AccessTokenInfo)
    (h1 : st.accessTokens.lookup tok = some info)
    (h2 : (st.sessions.lookup info.handle).isSome = true) :
    (SessionFunctions.regenerate_access_token st tok p).map
      (fun q => (q.1.session.handle,
        (SessionFunctions.get_session_information q.2 info.handle).map
          (fun i => i.accessTokenPayload)))
      = some (info.handle, some p) := by
  obtain ⟨r, hr⟩ := Option.isSome_iff_exists.mp h2
  have hset := lookup_setSessionRecord st.sessions info.handle
    { r with accessTokenPayload := p } h2
  simp [SessionFunctions.regenerate_access_token, h1, hr,
    SessionFunctions.get_session_information, hset]

theorem regenerate_access_token_preserves_handle_witness :
    (SessionFunctions.regenerate_access_token stA 1 [("bar", "baz")]).map
      (fun q => (q.1.session.handle,
        (SessionFunctions.get_session_information q.2 infoA.handle).map
          (fun i => i.accessTokenPayload)))
      = some (infoA.handle, some [("bar", "baz")]) :=
  regenerate_access_token_preserves_handle stA 1 [("bar", "baz")] infoA
    (by decide) (by decide)

/-- C10: calling the signout endpoint with the tokens of a session that
was revoked before the request still succeeds: the session is fetched
with `session_required := false` and `anti_csrf_check := none`, so the
request is not aborted; the written response is a 200 whose body is the
OK status and whose set-cookie instructions clear the access, id-refresh
and refresh token cookies to the empty value with epoch expiry. -/
theorem signout_after_revoked_session_ok (st : CoreState) (uid : String) :
    ((signout_after_revoke_scenario st uid).response).map
      (fun r => (r.statusCode, r.body, r.accessTokenCookie, r.idRefreshTokenCookie,
        r.refreshTokenCookie))
      = some (200, [("status", "OK")], some { value := none, expires := 0 },
          some { value := none, expires := 0 }, some { value := none, expires := 0 }) := by
  have hexp : ¬ (st.time + accessTokenLifetime ≤ st.time) := by
    simp only [accessTokenLifetime]
    omega
  simp [signout_after_revoke_scenario, SessionFunctions.create_new_session,
    SessionFunctions.revoke_session, handle_signout_api, defaultAPIInterface,
    recipe_get_session, SessionFunctions.get_session, List.lookup, hexp,
    default_signout_post, SessionContainer.revoke_session, lookup_filter_ne_self,
    attach_tokens_to_response, send_200_response, blankResponse]

theorem refresh_override_only_401_keeps_tokens_witness :
    just401Response.statusCode = 401 ∧
    cookieSetFresh just401Response.accessTokenCookie = true ∧
    cookieSetFresh just401Response.refreshTokenCookie = true ∧
    cookieSetFresh just401Response.idRefreshTokenCookie = true ∧
    just401Response.antiCsrfHeader.isSome = true ∧
    just401Response.idRefreshTokenHeader ≠ some IdRefreshHeaderValue.remove ∧
    just401Response.frontTokenHeader.isSome = true :=
  refresh_override_only_401_keeps_tokens stA 2 (some 4) just401Response just401State
    (by rfl)
